import Mathlib

/-!
Shallow embedding of `drive-backup.py`, a streaming backup script:
two process pipelines (database dump and file archive), a retention
manager over remote backup directories, and a run orchestrator.

External process exit codes and error streams are inputs of the model
(`StageResult`); the remote store is a list of directory names under the
base path, updated by the create-directory and stream-write calls the
script issues, and read by the retention listing.
-/

/-- Exit code and captured stderr text of one spawned external process. -/
structure StageResult where
  exitCode : Int
  err : String
deriving DecidableEq, Repr

/-- One line written by `log(message, level)`: the level tag and the message. -/
structure LogEntry where
  level : String
  message : String
deriving DecidableEq, Repr

-- Configuration constants of the script.
def RCLONE_REMOTE : String := "gdrive"
def BASE_REMOTE_PATH : String := "backups/automated_server_backups"
def MAX_BACKUPS : Nat := 14

/-- Name of the remote directory of the run with id `ts`: `backup_{TIMESTAMP}`. -/
def backup_dir_name (ts : String) : String := "backup_" ++ ts

/-- Value of `CURRENT_BACKUP_REMOTE_DIR` for run id `ts`. -/
def CURRENT_BACKUP_REMOTE_DIR (ts : String) : String :=
  BASE_REMOTE_PATH ++ "/" ++ backup_dir_name ts

/-- The `BACKUP_TARGETS` dict, in insertion order: (name, local path). -/
def BACKUP_TARGETS : List (String × String) :=
  [("apache2_config", "/etc/apache2"),
   ("letsencrypt_config", "/etc/letsencrypt"),
   ("wireguard_data", "/var/lib/docker/volumes/wg-easy_etc_wireguard/_data/"),
   ("wireguard_compose", "/root/wg-easy"),
   ("website_html", "/var/www/html"),
   ("terraria_server", "/home/amp/.ampdata/instances/Terraria_Vanilla_02_202601/Terraria"),
   ("minecraft_server", "/home/amp/.ampdata/instances/Cobblemon_1_21_101/Minecraft"),
   ("ufw_etc", "/etc/ufw"),
   ("ufw_defaults", "/etc/default/ufw"),
   ("drive_backup_script", "/root/drive-backup.py"),
   ("php_config", "/etc/php/")]

/-- Python string comparison used by `backup_dirs.sort(key=lambda x: x.Name)`:
lexicographic on the sequence of code points. -/
def nameLe (a b : String) : Prop := a.data ≤ b.data

instance : DecidableRel nameLe := fun a b => by unfold nameLe; infer_instance

instance : IsTotal String nameLe := ⟨fun a b => le_total a.data b.data⟩

instance : IsTrans String nameLe := ⟨fun _ _ _ h1 h2 => le_trans h1 h2⟩

/-- Python `d.Name.startswith("backup_")`. -/
def startsWithBackup (d : String) : Bool := "backup_".data.isPrefixOf d.data

/-- Model of `run_rclone_cmd(args, check)` given the spawned process result
`res`: on nonzero exit it logs two ERROR lines and, when `check` is true,
raises `Rclone failed: {stderr}`. -/
def run_rclone_cmd (res : StageResult) (cmdline : String) (check : Bool) :
    List LogEntry × Except String Unit :=
  if res.exitCode ≠ 0 then
    ([⟨"ERROR", "Rclone command failed: " ++ cmdline⟩,
      ⟨"ERROR", "Rclone Stderr: " ++ res.err⟩],
     if check then Except.error ("Rclone failed: " ++ res.err) else Except.ok ())
  else ([], Except.ok ())

/-- Model of `backup_database_stream()`: after the three pipeline processes
terminate with results `p3_rclone`, `p2_gzip`, `p1_dump`, the function
checks the rclone exit code, then the mysqldump exit code, and raises with
the corresponding captured stderr. The gzip result is captured by
`communicate()` but its exit code is never inspected. -/
def backup_database_stream (p3_rclone p2_gzip p1_dump : StageResult) :
    Except String Unit :=
  if p3_rclone.exitCode ≠ 0 then
    Except.error ("Rclone DB Upload Failed: " ++ p3_rclone.err)
  else if p1_dump.exitCode ≠ 0 then
    Except.error ("Mysqldump Failed: " ++ p1_dump.err)
  else Except.ok ()

/-- Targets of `BACKUP_TARGETS` whose path exists, in iteration order. -/
def valid_targets (pathExists : String → Bool) : List (String × String) :=
  BACKUP_TARGETS.filter fun t => pathExists t.2

/-- The WARN lines logged for targets whose path does not exist. -/
def missing_target_logs (pathExists : String → Bool) : List LogEntry :=
  BACKUP_TARGETS.filterMap fun t =>
    if pathExists t.2 then none else some ⟨"WARN", "Not Found: " ++ t.2⟩

/-- Observable outcome of `backup_files_stream()`: the lines it logged,
whether the tar/rclone pipeline was spawned (hence whether an upload call
was issued), and the returned or raised result. -/
structure FilesRun where
  log : List LogEntry
  spawned : Bool
  outcome : Except String Unit
deriving Repr

/-- Model of `backup_files_stream()` for run id `ts`, filesystem existence
predicate `pathExists`, and pipeline process results `p1_tar`, `p2_rclone`
(used only when the pipeline is spawned). With zero valid targets the
function logs one ERROR line and returns without spawning the pipeline.
Otherwise: nonzero rclone exit raises; tar exit above 1 raises; tar exit 1
logs a WARN line and continues. -/
def backup_files_stream (ts : String) (pathExists : String → Bool)
    (p1_tar p2_rclone : StageResult) : FilesRun :=
  let remote_dest := RCLONE_REMOTE ++ ":" ++ CURRENT_BACKUP_REMOTE_DIR ts ++ "/files.tar.gz"
  let log0 := [LogEntry.mk "INFO" ("Starting File Stream to: " ++ remote_dest)] ++
    missing_target_logs pathExists
  if (valid_targets pathExists).length = 0 then
    { log := log0 ++ [⟨"ERROR", "No valid targets found to backup! Aborting file stream."⟩],
      spawned := false, outcome := Except.ok () }
  else if p2_rclone.exitCode ≠ 0 then
    { log := log0 ++ [⟨"ERROR", "Rclone File Upload Failed: " ++ p2_rclone.err⟩],
      spawned := true, outcome := Except.error "File stream upload failed" }
  else if p1_tar.exitCode > 1 then
    { log := log0 ++ [⟨"ERROR", "Tar Fatal Error: " ++ p1_tar.err⟩],
      spawned := true, outcome := Except.error "Tar compression failed" }
  else if p1_tar.exitCode = 1 then
    { log := log0 ++ [⟨"WARN", "Tar warning (files changed during read), continuing..."⟩,
        ⟨"INFO", "File stream completed successfully."⟩],
      spawned := true, outcome := Except.ok () }
  else
    { log := log0 ++ [⟨"INFO", "File stream completed successfully."⟩],
      spawned := true, outcome := Except.ok () }

/-- Entries of the retention listing whose name matches the backup naming
convention (`startswith("backup_")`). -/
def matching_backup_dirs (dirs : List String) : List String :=
  dirs.filter startsWithBackup

/-- The `to_delete` slice of `manage_retention()`: the convention-matching
names sorted ascending, keeping only the first `count - MAX_BACKUPS` when
the count exceeds `MAX_BACKUPS`, and nothing otherwise. -/
def retention_selection (dirs : List String) : List String :=
  let backup_dirs := List.insertionSort nameLe (matching_backup_dirs dirs)
  if backup_dirs.length > MAX_BACKUPS then
    backup_dirs.take (backup_dirs.length - MAX_BACKUPS)
  else []

/-- Observable outcome of a retention pass: logged lines, the purge calls
issued (in order), and the returned or raised result. -/
structure RetentionRun where
  log : List LogEntry
  purged : List String
  outcome : Except String Unit
deriving Repr

/-- The deletion loop of `manage_retention()`: for each selected folder it
logs the purge line and calls `run_rclone_cmd(["purge", ...])` with the
default `check=True`, so a nonzero purge exit raises out of the loop and
the remaining folders receive no purge call. `purgeRes d` is the process
result of purging folder `d`. -/
def purge_loop (purgeRes : String → StageResult) : List String → RetentionRun
  | [] => ⟨[], [], Except.ok ()⟩
  | d :: rest =>
    let logd : List LogEntry := [⟨"INFO", "Purging old backup folder: " ++ d⟩]
    let r := run_rclone_cmd (purgeRes d)
      ("rclone purge " ++ RCLONE_REMOTE ++ ":" ++ BASE_REMOTE_PATH ++ "/" ++ d) true
    match r.2 with
    | Except.error e => ⟨logd ++ r.1, [d], Except.error e⟩
    | Except.ok _ =>
      let r2 := purge_loop purgeRes rest
      ⟨logd ++ r.1 ++ r2.log, d :: r2.purged, r2.outcome⟩

/-- Model of `manage_retention()` applied to the list of directory names
`dirs` returned by the `lsjson --dirs-only` listing of the base path:
filters to names starting with `backup_`, sorts ascending by name, and
purges the oldest beyond `MAX_BACKUPS` via `purge_loop`. -/
def manage_retention (purgeRes : String → StageResult) (dirs : List String) :
    RetentionRun :=
  let backup_dirs := List.insertionSort nameLe (matching_backup_dirs dirs)
  let log0 : List LogEntry :=
    [⟨"INFO", "Checking retention policy..."⟩,
     ⟨"INFO", "Found " ++ toString backup_dirs.length ++ " backup folders."⟩]
  if backup_dirs.length > MAX_BACKUPS then
    let to_delete := backup_dirs.take (backup_dirs.length - MAX_BACKUPS)
    let r := purge_loop purgeRes to_delete
    ⟨log0 ++ [⟨"INFO", "Retention exceeded. Deleting " ++ toString to_delete.length ++
        " old folders."⟩] ++ r.log,
      r.purged, r.outcome⟩
  else
    ⟨log0 ++ [⟨"INFO", "Retention limit not reached."⟩], [], Except.ok ()⟩

/-- External-process results and filesystem state one run of the script
observes: the run id (the `TIMESTAMP` global), the result of each spawned
process, and the target-existence predicate. `purgeRes` gives the result
of the purge of each remote folder name. -/
structure Env where
  runId : String
  mkdir_res : StageResult
  db_rclone : StageResult
  db_gzip : StageResult
  db_dump : StageResult
  pathExists : String → Bool
  tar_res : StageResult
  files_rclone : StageResult
  purgeRes : String → StageResult

/-- Remote create-directory effect: adds the name if it is not yet present
(idempotent, per the remote-store interface). -/
def addDir (dirs : List String) (d : String) : List String :=
  if d ∈ dirs then dirs else dirs ++ [d]

/-- Observable outcome of `perform_backup()`: which jobs were invoked, the
purge calls issued, the remote directory listing afterwards, whether the
internal job sequence raised (and was caught and logged as `Backup failed`),
and the state after the `finally` block (log upload call issued, local temp
directory removed). -/
structure RunReport where
  filesInvoked : Bool
  retentionInvoked : Bool
  purged : List String
  remoteAfter : List String
  internalFailed : Bool
  logUploaded : Bool
  tempDirAfter : Bool
deriving Repr

/-- Model of `perform_backup()` starting from remote listing `remote0` of
the base path. Step order follows the source: `rclone mkdir` of the run
directory (`check=False`, creating it on success), the database stream (a
successful `rclone rcat` writes `database.sql.gz` under the run directory,
creating it implicitly), the file stream (same for `files.tar.gz`), then
retention over the current listing. A raise from any step jumps to the
`except` block (marking the run failed) and then the `finally` block, which
always issues the log upload (`check=False`) and removes the temp dir. -/
def perform_backup (env : Env) (remote0 : List String) : RunReport :=
  let runDir := backup_dir_name env.runId
  let r1 := if env.mkdir_res.exitCode = 0 then addDir remote0 runDir else remote0
  let r2 := if env.db_rclone.exitCode = 0 then addDir r1 runDir else r1
  match backup_database_stream env.db_rclone env.db_gzip env.db_dump with
  | Except.error _ =>
    { filesInvoked := false, retentionInvoked := false, purged := [], remoteAfter := r2,
      internalFailed := true, logUploaded := true, tempDirAfter := false }
  | Except.ok _ =>
    let fr := backup_files_stream env.runId env.pathExists env.tar_res env.files_rclone
    let r3 := if fr.spawned && env.files_rclone.exitCode = 0 then addDir r2 runDir else r2
    match fr.outcome with
    | Except.error _ =>
      { filesInvoked := true, retentionInvoked := false, purged := [], remoteAfter := r3,
        internalFailed := true, logUploaded := true, tempDirAfter := false }
    | Except.ok _ =>
      let rr := manage_retention env.purgeRes r3
      let removed := rr.purged.filter fun d => (env.purgeRes d).exitCode = 0
      { filesInvoked := true, retentionInvoked := true, purged := rr.purged,
        remoteAfter := r3.filter (fun d => decide (d ∉ removed)),
        internalFailed := match rr.outcome with | Except.error _ => true | Except.ok _ => false,
        logUploaded := true, tempDirAfter := false }

/-- Process-level outcome of one invocation of the script. `tempTouched` is
whether anything was written under the temp workspace; `report` is the
orchestrator outcome when it ran. -/
structure MainOutcome where
  exitCode : Int
  tempTouched : Bool
  report : Option RunReport
deriving Repr

/-- Model of the `__main__` block: when the effective uid is nonzero the
process prints an error and exits 1 without touching the workspace;
otherwise it runs `perform_backup()` (which starts by creating the temp
dir) and the process exits 0. -/
def script_main (euid : Nat) (env : Env) (remote0 : List String) : MainOutcome :=
  if euid ≠ 0 then ⟨1, false, none⟩
  else ⟨0, true, some (perform_backup env remote0)⟩

/-- Strict name comparison: Python `a < b` on strings (code-point order). -/
def nameLt (a b : String) : Prop := a.data < b.data

instance : DecidableRel nameLt := fun a b => by unfold nameLt; infer_instance

/-- Process result with exit code 0 and empty stderr. -/
def stage0 : StageResult := ⟨0, ""⟩

/-- Environment in which every external process exits 0 and every target
path exists. -/
def env0 : Env :=
  { runId := "20260101_120000", mkdir_res := stage0, db_rclone := stage0, db_gzip := stage0,
    db_dump := stage0, pathExists := fun _ => true, tar_res := stage0, files_rclone := stage0,
    purgeRes := fun _ => stage0 }

/-- Remote listing with sixteen convention-matching directories. -/
def dirs16 : List String :=
  ["backup_01", "backup_02", "backup_03", "backup_04", "backup_05", "backup_06",
   "backup_07", "backup_08", "backup_09", "backup_10", "backup_11", "backup_12",
   "backup_13", "backup_14", "backup_15", "backup_16"]

/-- Remote listing with twenty convention-matching directories, as in the
Scenario A precondition. -/
def remote20 : List String :=
  ["backup_01", "backup_02", "backup_03", "backup_04", "backup_05", "backup_06",
   "backup_07", "backup_08", "backup_09", "backup_10", "backup_11", "backup_12",
   "backup_13", "backup_14", "backup_15", "backup_16", "backup_17", "backup_18",
   "backup_19", "backup_20"]

/-- Purge results in which every purge succeeds. -/
def purgeAllOk : String → StageResult := fun _ => stage0

/-- Purge results in which the purge of `backup_01` fails and every other
purge succeeds. -/
def purgeFail01 : String → StageResult :=
  fun d => if d = "backup_01" then ⟨1, "drive quota exceeded"⟩ else stage0

/-- Environment of Scenario A: run id `99`, so the run directory is
`backup_99`, lexicographically after every entry of `remote20`. -/
def env_scenario_a : Env := { env0 with runId := "99" }

/-- Environment of Scenario B: the dump stage exits 2, everything else
succeeds. -/
def env_dump_fails : Env := { env0 with db_dump := ⟨2, "dump failed"⟩ }

/-- The freshly created run directory name always matches the backup
naming convention. -/
theorem startsWithBackup_backup_dir (ts : String) :
    startsWithBackup (backup_dir_name ts) = true := by
  unfold startsWithBackup backup_dir_name
  rw [List.isPrefixOf_iff_prefix, String.data_append]
  exact List.prefix_append _ _

/-- When every purge process exits 0, the purge loop issues a purge call
for every selected folder and returns normally. -/
theorem purge_loop_all_ok (purgeRes : String → StageResult) (l : List String)
    (h : ∀ d ∈ l, (purgeRes d).exitCode = 0) :
    (purge_loop purgeRes l).purged = l ∧
    (purge_loop purgeRes l).outcome = Except.ok () := by
  induction l with
  | nil => exact ⟨rfl, rfl⟩
  | cons d rest ih =>
    have hd : (purgeRes d).exitCode = 0 := h d (by simp)
    have hrest := ih fun x hx => h x (by simp [hx])
    simp [purge_loop, run_rclone_cmd, hd, hrest.1, hrest.2]

/-- When the purge of `d` fails after successful purges of `pre`, the loop
issues exactly the calls for `pre` and `d`, logs the captured stderr of the
failing purge, and raises, so the folders of `post` receive no call. -/
theorem purge_loop_abort (purgeRes : String → StageResult) (pre : List String)
    (d : String) (post : List String)
    (hpre : ∀ x ∈ pre, (purgeRes x).exitCode = 0)
    (hd : (purgeRes d).exitCode ≠ 0) :
    (purge_loop purgeRes (pre ++ d :: post)).purged = pre ++ [d] ∧
    (purge_loop purgeRes (pre ++ d :: post)).outcome =
      Except.error ("Rclone failed: " ++ (purgeRes d).err) ∧
    LogEntry.mk "ERROR" ("Rclone Stderr: " ++ (purgeRes d).err) ∈
      (purge_loop purgeRes (pre ++ d :: post)).log := by
  induction pre with
  | nil => simp [purge_loop, run_rclone_cmd, hd]
  | cons a pre ih =>
    have ha : (purgeRes a).exitCode = 0 := hpre a (by simp)
    have hrest := ih fun x hx => hpre x (by simp [hx])
    simp [purge_loop, run_rclone_cmd, ha, hrest.1, hrest.2.1, hrest.2.2]

/-- The purge calls, the outcome, and (up to the surrounding header lines)
the log of `manage_retention` are those of `purge_loop` applied to the
selected folders. -/
theorem manage_retention_run (purgeRes : String → StageResult) (dirs : List String) :
    (manage_retention purgeRes dirs).purged =
      (purge_loop purgeRes (retention_selection dirs)).purged ∧
    (manage_retention purgeRes dirs).outcome =
      (purge_loop purgeRes (retention_selection dirs)).outcome ∧
    ∀ x ∈ (purge_loop purgeRes (retention_selection dirs)).log,
      x ∈ (manage_retention purgeRes dirs).log := by
  by_cases h : MAX_BACKUPS < (matching_backup_dirs dirs).length
  · refine ⟨?_, ?_, ?_⟩ <;>
      simp only [manage_retention, retention_selection, List.length_insertionSort,
        if_pos h] <;> tauto
  · simp [manage_retention, retention_selection, h, purge_loop]

/-- When the matching count does not exceed the limit, nothing is selected
for deletion. -/
theorem retention_selection_of_le (dirs : List String)
    (h : (matching_backup_dirs dirs).length ≤ MAX_BACKUPS) :
    retention_selection dirs = [] := by
  unfold retention_selection
  rw [if_neg]
  rw [List.length_insertionSort]
  exact not_lt.mpr h

/-- When the matching count K exceeds the limit, the selection consists of
K minus `MAX_BACKUPS` entries, all of them matching entries, and each
selected entry compares at or below every unselected matching entry. -/
theorem retention_selection_spec (dirs : List String)
    (h : MAX_BACKUPS < (matching_backup_dirs dirs).length) :
    (retention_selection dirs).length =
      (matching_backup_dirs dirs).length - MAX_BACKUPS ∧
    (∀ x ∈ retention_selection dirs, x ∈ matching_backup_dirs dirs) ∧
    (∀ x ∈ retention_selection dirs, ∀ y ∈ matching_backup_dirs dirs,
      y ∉ retention_selection dirs → nameLe x y) := by
  have hsel : retention_selection dirs =
      (List.insertionSort nameLe (matching_backup_dirs dirs)).take
        ((matching_backup_dirs dirs).length - MAX_BACKUPS) := by
    simp only [retention_selection, List.length_insertionSort]
    rw [if_pos h]
  have hperm := List.perm_insertionSort nameLe (matching_backup_dirs dirs)
  refine ⟨?_, ?_, ?_⟩
  · rw [hsel, List.length_take, List.length_insertionSort]
    exact Nat.min_eq_left (Nat.sub_le _ _)
  · intro x hx
    rw [hsel] at hx
    exact hperm.mem_iff.mp (List.mem_of_mem_take hx)
  · intro x hx y hy hynot
    rw [hsel] at hx hynot
    have hy2 : y ∈ List.insertionSort nameLe (matching_backup_dirs dirs) :=
      hperm.mem_iff.mpr hy
    rw [← List.take_append_drop ((matching_backup_dirs dirs).length - MAX_BACKUPS)
      (List.insertionSort nameLe (matching_backup_dirs dirs))] at hy2
    rcases List.mem_append.mp hy2 with hmem | hmem
    · exact absurd hmem hynot
    · exact (List.sorted_insertionSort nameLe
        (matching_backup_dirs dirs)).rel_of_mem_take_of_mem_drop hx hmem

/-- Inserting `b` into a sorted list that ends with a top element `a` at or
above `b` keeps `a` last. -/
theorem orderedInsert_append_top (b a : String) (s : List String) (hba : nameLe b a) :
    List.orderedInsert nameLe b (s ++ [a]) = List.orderedInsert nameLe b s ++ [a] := by
  induction s with
  | nil => simp [List.orderedInsert, hba]
  | cons c s ih =>
    by_cases h : nameLe b c
    · simp [List.orderedInsert, h]
    · simp [List.orderedInsert, h, ih]

/-- Sorting a list whose last element is at or above every other element
sorts the rest and keeps that element last. -/
theorem insertionSort_append_top (l : List String) (a : String)
    (h : ∀ x ∈ l, nameLe x a) :
    List.insertionSort nameLe (l ++ [a]) = List.insertionSort nameLe l ++ [a] := by
  induction l with
  | nil => simp [List.insertionSort, List.orderedInsert]
  | cons b l ih =>
    have hb : nameLe b a := h b (by simp)
    have hrest := ih fun x hx => h x (by simp [hx])
    show List.orderedInsert nameLe b (List.insertionSort nameLe (l ++ [a])) =
      List.orderedInsert nameLe b (List.insertionSort nameLe l) ++ [a]
    rw [hrest, orderedInsert_append_top b a _ hb]

/-- Success shape of `backup_files_stream`: with at least one valid target,
a zero rclone exit and a zero tar exit, the pipeline is spawned and the
job returns normally. -/
theorem files_stream_success (ts : String) (pathExists : String → Bool)
    (p1 p2 : StageResult) (hv : (valid_targets pathExists).length ≠ 0)
    (hp2 : p2.exitCode = 0) (hp1 : p1.exitCode = 0) :
    (backup_files_stream ts pathExists p1 p2).spawned = true ∧
    (backup_files_stream ts pathExists p1 p2).outcome = Except.ok () := by
  unfold backup_files_stream
  simp [hv, hp2, hp1]

/-- The WARN lines produced for missing targets contain no ERROR-level
line. -/
theorem filterMap_warn_no_error (l : List (String × String)) (pe : String → Bool) :
    ((l.filterMap fun t =>
        if pe t.2 then none else some (LogEntry.mk "WARN" ("Not Found: " ++ t.2))).filter
      fun e => e.level == "ERROR") = [] := by
  induction l with
  | nil => rfl
  | cons a l ih => by_cases h : pe a.2 <;> simp [List.filterMap_cons, h, ih]

/-- Claim C2 (counterexample): the compress (gzip) stage tolerates only
exit 0 according to the claim, yet a gzip exit of 1 with upload and dump
exiting 0 still makes the database pipeline succeed: the gzip exit code is
never checked. -/
theorem db_gzip_exit_ignored_cex :
    (1 : Int) ≠ 0 ∧
    backup_database_stream ⟨0, ""⟩ ⟨1, "gzip: stdout: No space left on device"⟩ ⟨0, ""⟩ =
      Except.ok () :=
  ⟨by decide, rfl⟩

/-- Claim C2 (amended): the database pipeline succeeds exactly when the
upload (rclone) stage and the dump (mysqldump) stage exit 0; the compress
(gzip) stage exit code is not consulted at all. -/
theorem db_stream_success_iff (p3 p2 p1 : StageResult) :
    backup_database_stream p3 p2 p1 = Except.ok () ↔
      p3.exitCode = 0 ∧ p1.exitCode = 0 := by
  unfold backup_database_stream
  by_cases h3 : p3.exitCode = 0 <;> by_cases h1 : p1.exitCode = 0 <;> simp [h3, h1]

/-- Claim C10: the upload exit code is checked before the dump exit code,
so whenever the upload stage exits nonzero the raised failure carries
exactly the upload stderr, whatever the dump stage did. -/
theorem db_upload_error_reported_first (p3 p2 p1 : StageResult)
    (h : p3.exitCode ≠ 0) :
    backup_database_stream p3 p2 p1 =
      Except.error ("Rclone DB Upload Failed: " ++ p3.err) := by
  unfold backup_database_stream
  simp [h]

/-- Witness for C10 at a run where the dump stage also failed (exit 2):
the reported failure carries only the upload stderr. -/
theorem db_upload_error_reported_first_witness :
    backup_database_stream ⟨1, "upload refused"⟩ ⟨0, ""⟩ ⟨2, "dump died"⟩ =
      Except.error ("Rclone DB Upload Failed: " ++ "upload refused") :=
  db_upload_error_reported_first ⟨1, "upload refused"⟩ ⟨0, ""⟩ ⟨2, "dump died"⟩ (by decide)

/-- Claim C7: in the file archive job with a successful upload stage, a tar
exit of 1 lets the job succeed with a warning logged, while a tar exit of 2
or greater makes the job raise. -/
theorem tar_exit_policy (ts : String) (pathExists : String → Bool)
    (p1 p2 : StageResult) (hv : (valid_targets pathExists).length ≠ 0)
    (hp2 : p2.exitCode = 0) :
    (p1.exitCode = 1 →
      (backup_files_stream ts pathExists p1 p2).outcome = Except.ok () ∧
      LogEntry.mk "WARN" "Tar warning (files changed during read), continuing..." ∈
        (backup_files_stream ts pathExists p1 p2).log) ∧
    (2 ≤ p1.exitCode →
      (backup_files_stream ts pathExists p1 p2).outcome =
        Except.error "Tar compression failed") := by
  constructor
  · intro h1
    unfold backup_files_stream
    simp [hv, hp2, h1]
  · intro h2
    have hgt : (1 : Int) < p1.exitCode := lt_of_lt_of_le one_lt_two h2
    unfold backup_files_stream
    simp [hv, hp2, hgt]

/-- Witness for C7: all targets exist, upload exits 0; tar exit 1 gives a
normal return while tar exit 2 gives the raised tar failure. -/
theorem tar_exit_policy_witness :
    (backup_files_stream "20260101_120000" (fun _ => true) ⟨1, ""⟩ ⟨0, ""⟩).outcome =
      Except.ok () ∧
    (backup_files_stream "20260101_120000" (fun _ => true) ⟨2, "tar: fatal"⟩ ⟨0, ""⟩).outcome =
      Except.error "Tar compression failed" :=
  ⟨((tar_exit_policy "20260101_120000" (fun _ => true) ⟨1, ""⟩ ⟨0, ""⟩
      (by decide) rfl).1 rfl).1,
   (tar_exit_policy "20260101_120000" (fun _ => true) ⟨2, "tar: fatal"⟩ ⟨0, ""⟩
      (by decide) rfl).2 (by decide)⟩

/-- Claim C8: with zero existing targets the file archive job spawns no
pipeline (hence uploads nothing), returns normally instead of raising, and
its log contains exactly one ERROR-level line. -/
theorem files_soft_skip (ts : String) (pathExists : String → Bool)
    (p1 p2 : StageResult) (h : ∀ t ∈ BACKUP_TARGETS, pathExists t.2 = false) :
    (backup_files_stream ts pathExists p1 p2).spawned = false ∧
    (backup_files_stream ts pathExists p1 p2).outcome = Except.ok () ∧
    ((backup_files_stream ts pathExists p1 p2).log.filter
      fun e => e.level == "ERROR").length = 1 := by
  have hv : valid_targets pathExists = [] :=
    List.filter_eq_nil_iff.mpr fun t ht => by simp [h t ht]
  unfold backup_files_stream
  refine ⟨by simp [hv], by simp [hv], ?_⟩
  simp [hv, List.filter_append, missing_target_logs, filterMap_warn_no_error]

/-- Witness for C8 with the predicate under which no path exists. -/
theorem files_soft_skip_witness :
    (backup_files_stream "20260101_120000" (fun _ => false) stage0 stage0).spawned = false ∧
    (backup_files_stream "20260101_120000" (fun _ => false) stage0 stage0).outcome =
      Except.ok () ∧
    ((backup_files_stream "20260101_120000" (fun _ => false) stage0 stage0).log.filter
      fun e => e.level == "ERROR").length = 1 :=
  files_soft_skip "20260101_120000" (fun _ => false) stage0 stage0 fun _ _ => rfl

/-- Claim C4: when the database stream raises, the file archive job and the
retention manager are never invoked, no purge call is issued, and the
finally block still uploads the log and removes the temp workspace. -/
theorem db_failure_skips_archive_and_retention (env : Env) (remote0 : List String)
    (e : String)
    (h : backup_database_stream env.db_rclone env.db_gzip env.db_dump = Except.error e) :
    (perform_backup env remote0).filesInvoked = false ∧
    (perform_backup env remote0).retentionInvoked = false ∧
    (perform_backup env remote0).purged = [] ∧
    (perform_backup env remote0).logUploaded = true ∧
    (perform_backup env remote0).tempDirAfter = false := by
  unfold perform_backup
  simp [h]

/-- Witness for C4 at the Scenario B environment: the dump stage exits 2. -/
theorem db_failure_skips_archive_and_retention_witness :
    (perform_backup env_dump_fails remote20).filesInvoked = false ∧
    (perform_backup env_dump_fails remote20).retentionInvoked = false ∧
    (perform_backup env_dump_fails remote20).purged = [] ∧
    (perform_backup env_dump_fails remote20).logUploaded = true ∧
    (perform_backup env_dump_fails remote20).tempDirAfter = false :=
  db_failure_skips_archive_and_retention env_dump_fails remote20
    ("Mysqldump Failed: " ++ "dump failed") rfl

/-- Claim C9: after the orchestrator returns, the local scratch workspace
no longer exists, whether or not the run failed. -/
theorem temp_workspace_removed (env : Env) (remote0 : List String) :
    (perform_backup env remote0).tempDirAfter = false := by
  unfold perform_backup
  rcases hdb : backup_database_stream env.db_rclone env.db_gzip env.db_dump with e | u
  · simp [hdb]
  · rcases hfr : (backup_files_stream env.runId env.pathExists env.tar_res
        env.files_rclone).outcome with e | u
    · simp [hdb, hfr]
    · simp [hdb, hfr]

/-- Claim C6: with a nonzero effective uid the process exits 1 without
touching the workspace; with euid 0 the process exits 0 whatever the
internal jobs did, since the orchestrator swallows internal failures. -/
theorem process_exit_codes (euid : Nat) (env : Env) (remote0 : List String) :
    (euid ≠ 0 → script_main euid env remote0 = ⟨1, false, none⟩) ∧
    (euid = 0 → script_main euid env remote0 =
      ⟨0, true, some (perform_backup env remote0)⟩) := by
  constructor
  · intro h
    simp [script_main, h]
  · intro h
    simp [script_main, h]

/-- Witness for C6: a non-root invocation and a root invocation in an
environment whose dump stage fails (the run failed internally, the process
still exits 0). -/
theorem process_exit_codes_witness :
    script_main 1 env_dump_fails [] = ⟨1, false, none⟩ ∧
    (script_main 0 env_dump_fails []).exitCode = 0 :=
  ⟨(process_exit_codes 1 env_dump_fails []).1 (by decide),
   by rw [(process_exit_codes 0 env_dump_fails []).2 rfl]⟩

/-- Claim C1: over any retention listing with K matching entries, when
every purge call succeeds: if K is at most the limit, no deletion is
issued; if K exceeds the limit, exactly K minus the limit deletions are
issued, every deleted name matches the convention and is in the listing,
every deleted name compares at or below every retained matching name, and
no non-matching name is deleted. -/
theorem retention_window_exact (purgeRes : String → StageResult) (dirs : List String)
    (hok : ∀ d, (purgeRes d).exitCode = 0) :
    ((matching_backup_dirs dirs).length ≤ MAX_BACKUPS →
      (manage_retention purgeRes dirs).purged = []) ∧
    (MAX_BACKUPS < (matching_backup_dirs dirs).length →
      (manage_retention purgeRes dirs).purged.length =
        (matching_backup_dirs dirs).length - MAX_BACKUPS ∧
      (∀ x ∈ (manage_retention purgeRes dirs).purged, x ∈ matching_backup_dirs dirs) ∧
      (∀ x ∈ (manage_retention purgeRes dirs).purged,
        ∀ y ∈ matching_backup_dirs dirs,
          y ∉ (manage_retention purgeRes dirs).purged → nameLe x y) ∧
      (∀ y, startsWithBackup y = false →
        y ∉ (manage_retention purgeRes dirs).purged)) := by
  have hrun := manage_retention_run purgeRes dirs
  have hloop := purge_loop_all_ok purgeRes (retention_selection dirs) fun d _ => hok d
  have hpurged : (manage_retention purgeRes dirs).purged = retention_selection dirs := by
    rw [hrun.1, hloop.1]
  constructor
  · intro hle
    rw [hpurged, retention_selection_of_le dirs hle]
  · intro hgt
    obtain ⟨hlen, hmem, hmin⟩ := retention_selection_spec dirs hgt
    rw [hpurged]
    refine ⟨hlen, hmem, hmin, ?_⟩
    intro y hy hymem
    have hmatch : startsWithBackup y = true := List.of_mem_filter (hmem y hymem)
    rw [hy] at hmatch
    exact Bool.false_ne_true hmatch

/-- Witness for C1 on a listing of sixteen matching directories with all
purges succeeding: sixteen minus fourteen purge calls are issued. -/
theorem retention_window_exact_witness :
    (manage_retention purgeAllOk dirs16).purged.length =
      (matching_backup_dirs dirs16).length - MAX_BACKUPS :=
  ((retention_window_exact purgeAllOk dirs16 fun _ => rfl).2 (by decide)).1

/-- Claim C3 (counterexample): with sixteen matching directories both
`backup_01` and `backup_02` are selected for deletion, but when the purge
of `backup_01` fails only `backup_01` receives a purge call: the loop
aborts and `backup_02` is never purged, so a delete call is NOT issued for
every selected entry. -/
theorem retention_abort_cex :
    retention_selection dirs16 = ["backup_01", "backup_02"] ∧
    (manage_retention purgeFail01 dirs16).purged = ["backup_01"] := by
  constructor
  · decide
  · decide

/-- Claim C3 (amended): a purge failure is logged (the captured stderr
appears as an ERROR line) but it raises out of the deletion loop: exactly
the selected entries up to and including the first failing one receive a
purge call, and the entries after it receive none. -/
theorem retention_abort_behavior (purgeRes : String → StageResult) (dirs : List String)
    (pre : List String) (d : String) (post : List String)
    (hsel : retention_selection dirs = pre ++ d :: post)
    (hpre : ∀ x ∈ pre, (purgeRes x).exitCode = 0)
    (hd : (purgeRes d).exitCode ≠ 0) :
    (manage_retention purgeRes dirs).purged = pre ++ [d] ∧
    (manage_retention purgeRes dirs).outcome =
      Except.error ("Rclone failed: " ++ (purgeRes d).err) ∧
    LogEntry.mk "ERROR" ("Rclone Stderr: " ++ (purgeRes d).err) ∈
      (manage_retention purgeRes dirs).log := by
  have hrun := manage_retention_run purgeRes dirs
  have hloop := purge_loop_abort purgeRes pre d post hpre hd
  rw [hsel] at hrun
  exact ⟨by rw [hrun.1, hloop.1], by rw [hrun.2.1, hloop.2.1],
    hrun.2.2 _ hloop.2.2⟩

/-- Witness for C3 (amended) at the failing purge of `backup_01`. -/
theorem retention_abort_behavior_witness :
    (manage_retention purgeFail01 dirs16).outcome =
      Except.error ("Rclone failed: " ++ (purgeFail01 "backup_01").err) :=
  (retention_abort_behavior purgeFail01 dirs16 [] "backup_01" ["backup_02"]
    (by decide) (by simp) (by decide)).2.1

/-- Claim C5 (amended): in a run where all eleven targets exist, every
pipeline process and purge succeeds, the remote run directory is created,
and the listing held exactly twenty matching directories before the run,
each lexicographically below the new run directory name: the retention
pass purges exactly the SEVEN oldest pre-existing directories (the freshly
created run directory is also listed, giving 21 matching entries against
the limit of 14) and the run reports success. -/
theorem scenario_a_purges_seven (env : Env) (remote0 : List String)
    (hmk : env.mkdir_res.exitCode = 0)
    (hdbu : env.db_rclone.exitCode = 0)
    (hdump : env.db_dump.exitCode = 0)
    (hex : ∀ t ∈ BACKUP_TARGETS, env.pathExists t.2 = true)
    (htar : env.tar_res.exitCode = 0)
    (hfu : env.files_rclone.exitCode = 0)
    (hpu : ∀ d, (env.purgeRes d).exitCode = 0)
    (hlen : remote0.length = 20)
    (hmatch : ∀ x ∈ remote0, startsWithBackup x = true)
    (hlt : ∀ x ∈ remote0, nameLt x (backup_dir_name env.runId)) :
    (perform_backup env remote0).purged =
      (List.insertionSort nameLe remote0).take 7 ∧
    (perform_backup env remote0).purged.length = 7 ∧
    (perform_backup env remote0).internalFailed = false ∧
    (perform_backup env remote0).filesInvoked = true ∧
    (perform_backup env remote0).retentionInvoked = true := by
  have hnotin : backup_dir_name env.runId ∉ remote0 := fun hmem =>
    lt_irrefl (backup_dir_name env.runId).data (hlt _ hmem)
  have hdb : backup_database_stream env.db_rclone env.db_gzip env.db_dump =
      Except.ok () := by
    unfold backup_database_stream
    simp [hdbu, hdump]
  have hv : valid_targets env.pathExists = BACKUP_TARGETS :=
    List.filter_eq_self.mpr hex
  have hfr := files_stream_success env.runId env.pathExists env.tar_res env.files_rclone
    (by rw [hv]; decide) hfu htar
  have hr1 : addDir remote0 (backup_dir_name env.runId) =
      remote0 ++ [backup_dir_name env.runId] := by
    unfold addDir
    rw [if_neg hnotin]
  have hr2 : addDir (remote0 ++ [backup_dir_name env.runId]) (backup_dir_name env.runId) =
      remote0 ++ [backup_dir_name env.runId] := by
    unfold addDir
    rw [if_pos (by simp)]
  have hmatchAll : matching_backup_dirs (remote0 ++ [backup_dir_name env.runId]) =
      remote0 ++ [backup_dir_name env.runId] := by
    unfold matching_backup_dirs
    refine List.filter_eq_self.mpr ?_
    intro x hx
    rcases List.mem_append.mp hx with hx | hx
    · exact hmatch x hx
    · rw [List.mem_singleton.mp hx]
      exact startsWithBackup_backup_dir env.runId
  have hsort : List.insertionSort nameLe (remote0 ++ [backup_dir_name env.runId]) =
      List.insertionSort nameLe remote0 ++ [backup_dir_name env.runId] :=
    insertionSort_append_top remote0 (backup_dir_name env.runId)
      fun x hx => le_of_lt (hlt x hx)
  have h20 : (List.insertionSort nameLe remote0).length = 20 := by
    rw [List.length_insertionSort, hlen]
  have hsel : retention_selection (remote0 ++ [backup_dir_name env.runId]) =
      (List.insertionSort nameLe remote0).take 7 := by
    simp only [retention_selection, hmatchAll, hsort, List.length_append, h20,
      List.length_singleton, MAX_BACKUPS]
    rw [if_pos (by norm_num)]
    norm_num
    omega
  have hloop := purge_loop_all_ok env.purgeRes
    (retention_selection (remote0 ++ [backup_dir_name env.runId])) fun d _ => hpu d
  have hrun := manage_retention_run env.purgeRes (remote0 ++ [backup_dir_name env.runId])
  have hpeq : (manage_retention env.purgeRes
      (remote0 ++ [backup_dir_name env.runId])).purged =
      (List.insertionSort nameLe remote0).take 7 := by
    rw [hrun.1, hloop.1, hsel]
  have hout : (manage_retention env.purgeRes
      (remote0 ++ [backup_dir_name env.runId])).outcome = Except.ok () := by
    rw [hrun.2.1, hloop.2]
  have hpurged : (perform_backup env remote0).purged =
      (manage_retention env.purgeRes (remote0 ++ [backup_dir_name env.runId])).purged := by
    unfold perform_backup
    simp [hmk, hdbu, hdb, hfr.1, hfr.2, hfu, hr1, hr2]
  have hfail : (perform_backup env remote0).internalFailed = false := by
    unfold perform_backup
    simp [hmk, hdbu, hdb, hfr.1, hfr.2, hfu, hr1, hr2, hout]
  have hfi : (perform_backup env remote0).filesInvoked = true := by
    unfold perform_backup
    simp [hmk, hdbu, hdb, hfr.1, hfr.2, hfu, hr1, hr2]
  have hri : (perform_backup env remote0).retentionInvoked = true := by
    unfold perform_backup
    simp [hmk, hdbu, hdb, hfr.1, hfr.2, hfu, hr1, hr2]
  refine ⟨by rw [hpurged, hpeq], ?_, hfail, hfi, hri⟩
  rw [hpurged, hpeq, List.length_take, h20]
  exact min_eq_left (by norm_num)

/-- Witness for C5 (amended) at the concrete Scenario A instance: run id
`99` over twenty pre-existing matching directories, everything succeeding:
seven purge calls are issued. -/
theorem scenario_a_purges_seven_witness :
    (perform_backup env_scenario_a remote20).purged.length = 7 :=
  (scenario_a_purges_seven env_scenario_a remote20 rfl rfl rfl
    (fun _ _ => rfl) rfl rfl (fun _ => rfl) (by decide) (by decide) (by decide)).2.1

/-- Claim C5 (counterexample): in the concrete Scenario A instance the
retention pass purges the seven (not six) oldest pre-existing directories,
because the freshly created run directory `backup_99` is also listed; the
run still reports success. -/
theorem scenario_a_cex :
    (perform_backup env_scenario_a remote20).purged =
      ["backup_01", "backup_02", "backup_03", "backup_04", "backup_05",
       "backup_06", "backup_07"] ∧
    (perform_backup env_scenario_a remote20).purged.length ≠ 6 ∧
    (perform_backup env_scenario_a remote20).internalFailed = false := by
  refine ⟨by decide, by decide, by decide⟩
